import Mathlib

/-!
Verification of the hot-tub evaporation model, the weather client's error
handling, and the display guard, as shallow embeddings over the reals.

The Python source computes with floats; here every numeric quantity is a
real number, 10 ** x is Real.rpow, and the one fallible operation
(division whose divisor can be zero, which raises ZeroDivisionError in
Python) is modelled by an Option result.
-/

namespace HotTub

/-- Total value of the Antoine formula: 10 ^ (A - B / (C + temp_c)) with
A = 8.07131, B = 1730.63, C = 233.426 and temp_c the Celsius conversion
of the Fahrenheit input. -/
noncomputable def vapor_pressure_val (temp_f : ℝ) : ℝ :=
  (10 : ℝ) ^ (8.07131 - 1730.63 / (233.426 + (temp_f - 32) * 5 / 9))

/-- Embedding of vapor_pressure_mmhg: converts Fahrenheit to Celsius and
applies the Antoine equation.  Python raises ZeroDivisionError when the
denominator C + temp_c is zero, modelled here by returning none. -/
noncomputable def vapor_pressure_mmhg (temp_f : ℝ) : Option ℝ :=
  let temp_c := (temp_f - 32) * 5 / 9
  if 233.426 + temp_c = 0 then none
  else some ((10 : ℝ) ^ (8.07131 - 1730.63 / (233.426 + temp_c)))

/-- Result dictionary returned by calculate_evaporation_rate. -/
structure EvapResults where
  evap_inches_per_day : ℝ
  evap_gallons_per_day : ℝ
  industry_estimate_gallons : ℝ
  base_rate : ℝ
  wind_multiplier : ℝ
  agitation_multiplier : ℝ
  exposure_fraction : ℝ
  vp_deficit_mmhg : ℝ

/-- Arithmetic body of calculate_evaporation_rate, given the two vapor
pressures already computed; a line-for-line translation of the source. -/
noncomputable def evap_from_pressures (pw_water pw_air relative_humidity_percent
    wind_speed_mph surface_area_sqft churn_area_percent
    exposure_hours_per_day : ℝ) : EvapResults :=
  let pa_air := pw_air * (relative_humidity_percent / 100)
  let vp_deficit := pw_water - pa_air
  let k_base : ℝ := 0.0018
  let base_evap_inches_per_day := k_base * vp_deficit
  let wind_multiplier := 1 + (wind_speed_mph * 0.04)
  let churn_fraction := churn_area_percent / 100
  let still_fraction := 1 - churn_fraction
  let churn_multiplier : ℝ := 2.0
  let agitation_multiplier := (still_fraction * 1.0) + (churn_fraction * churn_multiplier)
  let evap_rate_full_day := base_evap_inches_per_day * wind_multiplier * agitation_multiplier
  let exposure_fraction := exposure_hours_per_day / 24
  let evap_rate_actual := evap_rate_full_day * exposure_fraction
  let volume_cubic_feet := surface_area_sqft * (evap_rate_actual / 12)
  let volume_gallons := volume_cubic_feet * 7.48
  let industry_base : ℝ := 0.35
  let industry_estimate := industry_base * wind_multiplier * agitation_multiplier *
    exposure_fraction * surface_area_sqft / 12 * 7.48
  { evap_inches_per_day := evap_rate_actual
    evap_gallons_per_day := volume_gallons
    industry_estimate_gallons := industry_estimate
    base_rate := base_evap_inches_per_day
    wind_multiplier := wind_multiplier
    agitation_multiplier := agitation_multiplier
    exposure_fraction := exposure_fraction
    vp_deficit_mmhg := vp_deficit }

/-- Embedding of calculate_evaporation_rate: computes both saturated vapor
pressures with the helper, then the straight-line arithmetic; none when
either helper call fails. -/
noncomputable def calculate_evaporation_rate (water_temp_f air_temp_f
    relative_humidity_percent wind_speed_mph surface_area_sqft
    churn_area_percent exposure_hours_per_day : ℝ) : Option EvapResults :=
  match vapor_pressure_mmhg water_temp_f, vapor_pressure_mmhg air_temp_f with
  | some pw_water, some pw_air =>
      some (evap_from_pressures pw_water pw_air relative_humidity_percent
        wind_speed_mph surface_area_sqft churn_area_percent exposure_hours_per_day)
  | _, _ => none

/-- Total version of the result record, defined whenever neither Antoine
denominator is zero. -/
noncomputable def evap_results (water_temp_f air_temp_f relative_humidity_percent
    wind_speed_mph surface_area_sqft churn_area_percent
    exposure_hours_per_day : ℝ) : EvapResults :=
  evap_from_pressures (vapor_pressure_val water_temp_f) (vapor_pressure_val air_temp_f)
    relative_humidity_percent wind_speed_mph surface_area_sqft churn_area_percent
    exposure_hours_per_day

/-- Surface area computed by main: pi times the squared radius, the radius
being half the diameter. -/
noncomputable def surface_area (diameter_ft : ℝ) : ℝ :=
  Real.pi * (diameter_ft / 2) ^ 2

/-- Days-per-inch figure printed by main: 1 / depth_loss_per_day when the
loss is positive, and the float infinity otherwise, modelled as the top
element of the extended reals. -/
noncomputable def days_to_lose_one_inch (depth_loss_per_day : ℝ) : EReal :=
  if depth_loss_per_day > 0 then ((1 / depth_loss_per_day : ℝ) : EReal) else ⊤

/-- Reference definition written from the spec text for the Antoine
equation: T_celsius = (T - 32) * 5/9, coefficients A = 8.07131,
B = 1730.63, C = 233.426, result 10 raised to (A - B / (C + T_celsius)). -/
noncomputable def antoine_reference_pressure (T : ℝ) : ℝ :=
  let T_celsius := (T - 32) * 5 / 9
  (10 : ℝ) ^ (8.07131 - 1730.63 / (233.426 + T_celsius))

lemma vapor_pressure_mmhg_eq_some {t : ℝ} (h : 233.426 + (t - 32) * 5 / 9 ≠ 0) :
    vapor_pressure_mmhg t = some (vapor_pressure_val t) := by
  simp only [vapor_pressure_mmhg, vapor_pressure_val]
  rw [if_neg h]

lemma vapor_pressure_mmhg_eq_none {t : ℝ} (h : 233.426 + (t - 32) * 5 / 9 = 0) :
    vapor_pressure_mmhg t = none := by
  simp only [vapor_pressure_mmhg]
  rw [if_pos h]

lemma calculate_eq_some {w a hu ws sa cp eh : ℝ}
    (hw : 233.426 + (w - 32) * 5 / 9 ≠ 0) (ha : 233.426 + (a - 32) * 5 / 9 ≠ 0) :
    calculate_evaporation_rate w a hu ws sa cp eh = some (evap_results w a hu ws sa cp eh) := by
  unfold calculate_evaporation_rate evap_results
  rw [vapor_pressure_mmhg_eq_some hw, vapor_pressure_mmhg_eq_some ha]

lemma calculate_some_inv {w a hu ws sa cp eh : ℝ} {r : EvapResults}
    (h : calculate_evaporation_rate w a hu ws sa cp eh = some r) :
    r = evap_results w a hu ws sa cp eh := by
  by_cases hw : 233.426 + (w - 32) * 5 / 9 = 0
  · unfold calculate_evaporation_rate at h
    rw [vapor_pressure_mmhg_eq_none hw] at h
    cases vapor_pressure_mmhg a <;> simp at h
  · by_cases ha : 233.426 + (a - 32) * 5 / 9 = 0
    · unfold calculate_evaporation_rate at h
      rw [vapor_pressure_mmhg_eq_some hw, vapor_pressure_mmhg_eq_none ha] at h
      simp at h
    · rw [calculate_eq_some hw ha] at h
      exact (Option.some_inj.mp h).symm

lemma vapor_pressure_val_lt_of_lt {t1 t2 : ℝ}
    (h1 : 0 < 233.426 + (t1 - 32) * 5 / 9) (hlt : t1 < t2) :
    vapor_pressure_val t1 < vapor_pressure_val t2 := by
  unfold vapor_pressure_val
  rw [Real.rpow_lt_rpow_left_iff (by norm_num : (1 : ℝ) < 10)]
  have hc : (t1 - 32) * 5 / 9 < (t2 - 32) * 5 / 9 := by linarith
  have h2 : 0 < 233.426 + (t2 - 32) * 5 / 9 := by linarith
  have hdiv : 1730.63 / (233.426 + (t2 - 32) * 5 / 9)
      < 1730.63 / (233.426 + (t1 - 32) * 5 / 9) :=
    (div_lt_div_iff_of_pos_left (by norm_num) h2 h1).mpr (by linarith)
  linarith

end HotTub

namespace Weather

/-- Outcome of the HTTP GET performed by get_weather: either a response
with a status code and a JSON body, or a raised network exception
(requests.exceptions.RequestException). -/
inductive RequestOutcome where
  | response (status_code : Nat) (body : String)
  | network_failure (msg : String)

/-- Console message printed by the error handlers of get_weather. -/
inductive Message where
  | city_not_found (city : String)
  | http_error
  | fetch_error

/-- Embedding of WeatherApp.get_weather: raise_for_status raises HTTPError
exactly for status codes in [400, 600); the 404 handler prints the
city-not-found message, any other HTTPError prints the generic HTTP
error, any other RequestException prints the fetch error; every handler
returns None.  The embedding is a total function: no exception escapes. -/
def get_weather (city : String) (outcome : RequestOutcome) : Option String × Option Message :=
  match outcome with
  | .response status_code body =>
      if 400 ≤ status_code ∧ status_code < 600 then
        if status_code = 404 then (none, some (Message.city_not_found city))
        else (none, some Message.http_error)
      else (some body, none)
  | .network_failure _ => (none, some Message.fetch_error)

end Weather

namespace HotTub

/-- Claim C1: for every temperature whose Antoine denominator
C + T_celsius is nonzero (everywhere the Python code returns at all),
vapor_pressure_mmhg returns exactly the Antoine-equation reference value
10 ^ (A - B / (C + T_celsius)) with A = 8.07131, B = 1730.63,
C = 233.426 and T_celsius = (T - 32) * 5/9. -/
theorem vapor_pressure_matches_antoine_reference (T : ℝ)
    (h : 233.426 + (T - 32) * 5 / 9 ≠ 0) :
    vapor_pressure_mmhg T = some (antoine_reference_pressure T) := by
  rw [vapor_pressure_mmhg_eq_some h]
  rfl

/-- Witness for C1 at T = 102. -/
theorem vapor_pressure_matches_antoine_reference_witness :
    vapor_pressure_mmhg 102 = some (antoine_reference_pressure 102) :=
  vapor_pressure_matches_antoine_reference 102 (by norm_num)

/-- Claim C2 counterexample: at temp_f = -388.1668 the Antoine
denominator C + T_celsius is exactly zero, Python raises
ZeroDivisionError, and the embedding returns none: the core is not total
over all real inputs. -/
theorem totality_counterexample :
    vapor_pressure_mmhg (-388.1668) = none ∧
    calculate_evaporation_rate (-388.1668) 70 35 5 113 25 14 = none := by
  have h : (233.426 + ((-388.1668 : ℝ) - 32) * 5 / 9) = 0 := by norm_num
  refine ⟨vapor_pressure_mmhg_eq_none h, ?_⟩
  unfold calculate_evaporation_rate
  rw [vapor_pressure_mmhg_eq_none h]

/-- Claim C2 (amended): vapor_pressure_mmhg and
calculate_evaporation_rate return a result for every real input except
the single temperature -388.1668 degrees Fahrenheit (Celsius -233.426),
where the Antoine denominator is zero and the division raises. -/
theorem totality_amended :
    (∀ t : ℝ, t ≠ -388.1668 → (vapor_pressure_mmhg t).isSome) ∧
    (∀ w a hu ws sa cp eh : ℝ, w ≠ -388.1668 → a ≠ -388.1668 →
      (calculate_evaporation_rate w a hu ws sa cp eh).isSome) := by
  have key : ∀ t : ℝ, t ≠ -388.1668 → 233.426 + (t - 32) * 5 / 9 ≠ 0 := by
    intro t ht hzero
    exact ht (by linarith)
  constructor
  · intro t ht
    rw [vapor_pressure_mmhg_eq_some (key t ht)]
    rfl
  · intro w a hu ws sa cp eh hwne hane
    rw [calculate_eq_some (key w hwne) (key a hane)]
    rfl

/-- Witness for C2 (amended) at the default scenario inputs. -/
theorem totality_amended_witness :
    (vapor_pressure_mmhg 102).isSome ∧
    (calculate_evaporation_rate 102 70 35 5 113 25 14).isSome :=
  ⟨totality_amended.1 102 (by norm_num),
   totality_amended.2 102 70 35 5 113 25 14 (by norm_num) (by norm_num)⟩

/-- Claim C3: for temperatures t1 < t2 whose Celsius equivalents lie in
the valid 1-100 range, both calls return a value and the saturated vapor
pressure at t1 is strictly below the one at t2. -/
theorem vapor_pressure_monotone (t1 t2 : ℝ)
    (h11 : 1 ≤ (t1 - 32) * 5 / 9) (_h12 : (t1 - 32) * 5 / 9 ≤ 100)
    (_h21 : 1 ≤ (t2 - 32) * 5 / 9) (_h22 : (t2 - 32) * 5 / 9 ≤ 100)
    (hlt : t1 < t2) :
    vapor_pressure_mmhg t1 = some (vapor_pressure_val t1) ∧
    vapor_pressure_mmhg t2 = some (vapor_pressure_val t2) ∧
    vapor_pressure_val t1 < vapor_pressure_val t2 := by
  refine ⟨vapor_pressure_mmhg_eq_some (by linarith),
    vapor_pressure_mmhg_eq_some (by linarith), ?_⟩
  exact vapor_pressure_val_lt_of_lt (by linarith) hlt

/-- Witness for C3 at t1 = 50 (10 Celsius) and t2 = 102 (about 38.9). -/
theorem vapor_pressure_monotone_witness :
    vapor_pressure_mmhg 50 = some (vapor_pressure_val 50) ∧
    vapor_pressure_mmhg 102 = some (vapor_pressure_val 102) ∧
    vapor_pressure_val 50 < vapor_pressure_val 102 :=
  vapor_pressure_monotone 50 102 (by norm_num) (by norm_num) (by norm_num)
    (by norm_num) (by norm_num)

/-- Claim C4: the vapor-pressure deficit is not clamped; whenever the
returned deficit is negative and wind speed is nonnegative, churn
percent lies in [0, 100], exposure hours and surface area are positive,
both evap_inches_per_day and evap_gallons_per_day are strictly
negative. -/
theorem negative_deficit_negative_evaporation (w a hu ws sa cp eh : ℝ)
    (r : EvapResults)
    (h : calculate_evaporation_rate w a hu ws sa cp eh = some r)
    (hdef : r.vp_deficit_mmhg < 0) (hws : 0 ≤ ws) (hcp0 : 0 ≤ cp)
    (_hcp1 : cp ≤ 100) (heh : 0 < eh) (hsa : 0 < sa) :
    r.evap_inches_per_day < 0 ∧ r.evap_gallons_per_day < 0 := by
  rw [calculate_some_inv h] at hdef ⊢
  simp only [evap_results, evap_from_pressures] at hdef ⊢
  have hwm : (0 : ℝ) < 1 + ws * 0.04 := by nlinarith
  have ham : (0 : ℝ) < (1 - cp / 100) * 1.0 + cp / 100 * 2.0 := by
    have hfrac : (0 : ℝ) ≤ cp / 100 := by positivity
    nlinarith
  have hef : (0 : ℝ) < eh / 24 := by positivity
  have hbase : 0.0018 * (vapor_pressure_val w - vapor_pressure_val a * (hu / 100)) < 0 :=
    mul_neg_of_pos_of_neg (by norm_num) hdef
  have hinch : 0.0018 * (vapor_pressure_val w - vapor_pressure_val a * (hu / 100)) *
      (1 + ws * 0.04) * ((1 - cp / 100) * 1.0 + cp / 100 * 2.0) * (eh / 24) < 0 :=
    mul_neg_of_neg_of_pos
      (mul_neg_of_neg_of_pos (mul_neg_of_neg_of_pos hbase hwm) ham) hef
  refine ⟨hinch, ?_⟩
  have hdiv : 0.0018 * (vapor_pressure_val w - vapor_pressure_val a * (hu / 100)) *
      (1 + ws * 0.04) * ((1 - cp / 100) * 1.0 + cp / 100 * 2.0) * (eh / 24) / 12 < 0 :=
    div_neg_of_neg_of_pos hinch (by norm_num)
  exact mul_neg_of_neg_of_pos (mul_neg_of_pos_of_neg hsa hdiv) (by norm_num)

/-- Witness for C4: water 70 F, air 102 F, humidity 100 percent gives a
negative deficit; still air, no churn, one square foot, 24 hours. -/
theorem negative_deficit_negative_evaporation_witness :
    (evap_results 70 102 100 0 1 0 24).evap_inches_per_day < 0 ∧
    (evap_results 70 102 100 0 1 0 24).evap_gallons_per_day < 0 := by
  have h := @calculate_eq_some 70 102 100 0 1 0 24 (by norm_num) (by norm_num)
  have hlt : vapor_pressure_val 70 < vapor_pressure_val 102 :=
    @vapor_pressure_val_lt_of_lt 70 102 (by norm_num) (by norm_num)
  have hdef : (evap_results 70 102 100 0 1 0 24).vp_deficit_mmhg < 0 := by
    simp only [evap_results, evap_from_pressures]
    linarith
  exact negative_deficit_negative_evaporation 70 102 100 0 1 0 24 _ h hdef
    (by norm_num) (by norm_num) (by norm_num) (by norm_num) (by norm_num)

/-- Claim C5: the returned wind multiplier is exactly 1 + 0.04 times the
wind speed, with no ceiling. -/
theorem wind_multiplier_linear (w a hu ws sa cp eh : ℝ) (r : EvapResults)
    (h : calculate_evaporation_rate w a hu ws sa cp eh = some r) :
    r.wind_multiplier = 1 + 0.04 * ws := by
  rw [calculate_some_inv h]
  simp only [evap_results, evap_from_pressures]
  ring

/-- Witness for C5 at wind speed 5: the multiplier is exactly 1.20. -/
theorem wind_multiplier_linear_witness :
    (evap_results 102 70 35 5 113 25 14).wind_multiplier = 1.20 := by
  have h := @calculate_eq_some 102 70 35 5 113 25 14 (by norm_num) (by norm_num)
  rw [wind_multiplier_linear 102 70 35 5 113 25 14 _ h]
  norm_num

/-- Claim C6: the returned agitation multiplier is the weighted blend
(1 - c/100) * 1.0 + (c/100) * 2.0 of the still and churned rates. -/
theorem agitation_multiplier_blend (w a hu ws sa cp eh : ℝ) (r : EvapResults)
    (h : calculate_evaporation_rate w a hu ws sa cp eh = some r) :
    r.agitation_multiplier = (1 - cp / 100) * 1.0 + (cp / 100) * 2.0 := by
  rw [calculate_some_inv h]
  simp only [evap_results, evap_from_pressures]

/-- Witness for C6 at churn 100 percent: the multiplier is exactly 2.0. -/
theorem agitation_multiplier_blend_witness :
    (evap_results 102 70 35 5 113 100 14).agitation_multiplier = 2.0 := by
  have h := @calculate_eq_some 102 70 35 5 113 100 14 (by norm_num) (by norm_num)
  rw [agitation_multiplier_blend 102 70 35 5 113 100 14 _ h]
  norm_num

/-- Claim C7: surface area is pi times the squared half-diameter, so
doubling the diameter quadruples the area and, the other six inputs held
fixed, quadruples the gallons-per-day estimate. -/
theorem diameter_doubling_quadruples (d w a hu ws cp eh : ℝ)
    (r1 r2 : EvapResults)
    (h1 : calculate_evaporation_rate w a hu ws (surface_area d) cp eh = some r1)
    (h2 : calculate_evaporation_rate w a hu ws (surface_area (2 * d)) cp eh = some r2) :
    surface_area (2 * d) = 4 * surface_area d ∧
    r2.evap_gallons_per_day = 4 * r1.evap_gallons_per_day := by
  have harea : surface_area (2 * d) = 4 * surface_area d := by
    unfold surface_area
    ring
  refine ⟨harea, ?_⟩
  rw [calculate_some_inv h1, calculate_some_inv h2, harea]
  simp only [evap_results, evap_from_pressures]
  ring

/-- Witness for C7 at diameter 12 and the default scenario. -/
theorem diameter_doubling_quadruples_witness :
    surface_area (2 * 12) = 4 * surface_area 12 ∧
    (evap_results 102 70 35 5 (surface_area (2 * 12)) 25 14).evap_gallons_per_day =
      4 * (evap_results 102 70 35 5 (surface_area 12) 25 14).evap_gallons_per_day := by
  have h1 := @calculate_eq_some 102 70 35 5 (surface_area 12) 25 14
    (by norm_num) (by norm_num)
  have h2 := @calculate_eq_some 102 70 35 5 (surface_area (2 * 12)) 25 14
    (by norm_num) (by norm_num)
  exact diameter_doubling_quadruples 12 102 70 35 5 25 14 _ _ h1 h2

/-- Claim C8: the industry estimate and the primary estimate share every
factor except the base rate, so industry_estimate_gallons times
base_rate equals evap_gallons_per_day times 0.35. -/
theorem industry_primary_relation (w a hu ws sa cp eh : ℝ) (r : EvapResults)
    (h : calculate_evaporation_rate w a hu ws sa cp eh = some r) :
    r.industry_estimate_gallons * r.base_rate = r.evap_gallons_per_day * 0.35 := by
  rw [calculate_some_inv h]
  simp only [evap_results, evap_from_pressures]
  ring

/-- Witness for C8 at the default scenario. -/
theorem industry_primary_relation_witness :
    (evap_results 102 70 35 5 113 25 14).industry_estimate_gallons *
      (evap_results 102 70 35 5 113 25 14).base_rate =
    (evap_results 102 70 35 5 113 25 14).evap_gallons_per_day * 0.35 := by
  have h := @calculate_eq_some 102 70 35 5 113 25 14 (by norm_num) (by norm_num)
  exact industry_primary_relation 102 70 35 5 113 25 14 _ h

/-- Claim C10: the days-per-inch figure equals 1 / evap_inches_per_day
exactly when the rate is positive, and is infinity for every zero or
negative rate; the display path never divides by zero. -/
theorem days_per_inch_guard (x : ℝ) :
    (0 < x → days_to_lose_one_inch x = ((1 / x : ℝ) : EReal)) ∧
    (x ≤ 0 → days_to_lose_one_inch x = ⊤) := by
  constructor
  · intro hx
    unfold days_to_lose_one_inch
    rw [if_pos hx]
  · intro hx
    unfold days_to_lose_one_inch
    rw [if_neg (not_lt.mpr hx)]

/-- Witness for C10 at a positive and at a negative rate. -/
theorem days_per_inch_guard_witness :
    days_to_lose_one_inch 2 = ((1 / 2 : ℝ) : EReal) ∧
    days_to_lose_one_inch (-1) = ⊤ :=
  ⟨(days_per_inch_guard 2).1 (by norm_num), (days_per_inch_guard (-1)).2 (by norm_num)⟩

end HotTub

namespace Weather

/-- Claim C9: get_weather never lets an HTTP or network failure escape:
a 404 response yields the city-not-found message and no data, any other
error status in the raise_for_status range yields the generic HTTP
error message and no data, a network exception yields the fetch error
message and no data, and a success status returns the body. -/
theorem get_weather_error_handling :
    (∀ city body, get_weather city (RequestOutcome.response 404 body) =
      (none, some (Message.city_not_found city))) ∧
    (∀ city s body, 400 ≤ s → s < 600 → s ≠ 404 →
      get_weather city (RequestOutcome.response s body) =
        (none, some Message.http_error)) ∧
    (∀ city msg, get_weather city (RequestOutcome.network_failure msg) =
      (none, some Message.fetch_error)) ∧
    (∀ city s body, s < 400 →
      get_weather city (RequestOutcome.response s body) = (some body, none)) := by
  refine ⟨fun city body => rfl, fun city s body h4 h6 hne => ?_,
    fun city msg => rfl, fun city s body hlt => ?_⟩
  · simp only [get_weather]
    rw [if_pos ⟨h4, h6⟩, if_neg hne]
  · simp only [get_weather]
    have hcond : ¬(400 ≤ s ∧ s < 600) := by omega
    rw [if_neg hcond]

/-- Witness for C9: a 404, a 500, a network failure and a 200 success. -/
theorem get_weather_error_handling_witness :
    get_weather "London" (RequestOutcome.response 404 "body") =
      (none, some (Message.city_not_found "London")) ∧
    get_weather "London" (RequestOutcome.response 500 "body") =
      (none, some Message.http_error) ∧
    get_weather "London" (RequestOutcome.network_failure "timeout") =
      (none, some Message.fetch_error) ∧
    get_weather "London" (RequestOutcome.response 200 "ok") = (some "ok", none) :=
  ⟨get_weather_error_handling.1 "London" "body",
   get_weather_error_handling.2.1 "London" 500 "body" (by decide) (by decide) (by decide),
   get_weather_error_handling.2.2.1 "London" "timeout",
   get_weather_error_handling.2.2.2 "London" 200 "ok" (by decide)⟩

end Weather

